import Mathlib

/-!
Shallow embedding of `src/main.py` (rafttio/demo-services): a connection
facade (`DataConnector`) over three external clients (PostgreSQL, Redis, S3)
and the driver loop `main`.

Every call into an underlying client library is modelled by an oracle value
of type `Except Unit α`: `Except.ok v` means the call returns `v`,
`Except.error ()` means the call raises an exception.  A facade method is a
pure function of the connector state and such an oracle; its output records
the value returned to the caller (or `Except.error ()` when an exception
propagates past the method), the connector state after the call, and the
trace of client calls the method performed.  Handles are modelled as `Nat`
identifiers so that replacing or closing a particular handle is observable.
-/

namespace Demo

/-- Outcome of one call into an underlying client library: the returned
value, or an exception. -/
abbrev PyResult (α : Type) := Except Unit α

instance exceptDecEq {ε α : Type} [DecidableEq ε] [DecidableEq α] :
    DecidableEq (Except ε α)
  | .ok a, .ok b =>
    if h : a = b then .isTrue (by rw [h]) else .isFalse (by simp [h])
  | .ok _, .error _ => .isFalse (by simp)
  | .error _, .ok _ => .isFalse (by simp)
  | .error a, .error b =>
    if h : a = b then .isTrue (by rw [h]) else .isFalse (by simp [h])

/-- Observable client calls a facade method can perform, with enough
arguments to identify the call.  `pgClose`/`redisClose` carry the handle
being closed; `sleep` is the driver delay. -/
inductive Event : Type where
  | pgConnect : Event
  | pgCursor : Event
  | pgExecute : String → List String → Event
  | pgFetch : Event
  | pgCommit : Event
  | pgCursorClose : Event
  | pgClose : Nat → Event
  | redisConstruct : Event
  | redisPing : Event
  | redisSet : String → String → Option Nat → Event
  | redisGet : String → Event
  | redisClose : Nat → Event
  | s3Construct : Event
  | s3ListBuckets : Event
  | s3Upload : String → String → String → Event
  | s3Download : String → String → String → Event
  | fileWrite : String → String → Event
  | sleep : Nat → Event
  deriving DecidableEq, Repr

/-- The facade state: `DataConnector.__init__` sets all three handles to
`None`. -/
structure DataConnector : Type where
  postgres_conn : Option Nat
  redis_client : Option Nat
  s3_client : Option Nat
  deriving DecidableEq, Repr

/-- What a facade method produces: the value handed back to the caller
(`Except.error ()` when an exception escapes the method), the connector
state after the call, and the client calls made. -/
structure MethodOut (α : Type) : Type where
  result : Except Unit α
  state : DataConnector
  trace : List Event
  deriving DecidableEq, Repr

/-- Whitespace characters stripped by Python `str.strip()` (ASCII subset). -/
def pySpace (c : Char) : Bool :=
  c == ' ' || c == '\t' || c == '\n' || c == '\r' || c == '\x0b' || c == '\x0c'

/-- Strip leading and trailing whitespace from a character list. -/
def pyStripChars (cs : List Char) : List Char :=
  ((cs.dropWhile pySpace).reverse.dropWhile pySpace).reverse

/-- Model of Python `str.strip()`. -/
def pyStrip (s : String) : String := ⟨pyStripChars s.data⟩

/-- Model of Python `str.upper()` on ASCII text. -/
def pyUpper (s : String) : String := ⟨s.data.map Char.toUpper⟩

/-- Whether the pattern is a prefix of the character list, as in Python
`str.startswith`. -/
def listStartsWith : List Char → List Char → Bool
  | [], _ => true
  | _ :: _, [] => false
  | p :: ps, c :: cs => p == c && listStartsWith ps cs

/-- The test `query.strip().upper().startswith("SELECT")` from
`execute_postgres_query`. -/
def isSelectQuery (q : String) : Bool :=
  listStartsWith "SELECT".data (pyUpper (pyStrip q)).data

/-- Tail of a Python integer literal body: digits, with a single underscore
allowed between two digits. -/
def pyDigitTail : List Char → Bool
  | [] => true
  | '_' :: c :: rest => c.isDigit && pyDigitTail rest
  | c :: rest => c.isDigit && pyDigitTail rest

/-- A nonempty digit body as accepted by Python `int`. -/
def pyDigitsBody : List Char → Bool
  | [] => false
  | c :: rest => c.isDigit && pyDigitTail rest

/-- Numeric value of a digit body, ignoring underscores. -/
def pyDigitsVal : Nat → List Char → Nat
  | acc, [] => acc
  | acc, c :: rest =>
    if c == '_' then pyDigitsVal acc rest
    else pyDigitsVal (acc * 10 + (c.toNat - '0'.toNat)) rest

/-- Model of Python `int(s)` on strings: optional surrounding whitespace,
optional sign, then a digit body; any other string raises `ValueError`,
modelled as `none`. -/
def pyIntParse (s : String) : Option Int :=
  match pyStripChars s.data with
  | '+' :: rest => if pyDigitsBody rest then some (pyDigitsVal 0 rest) else none
  | '-' :: rest => if pyDigitsBody rest then some (-(pyDigitsVal 0 rest : Int)) else none
  | rest => if pyDigitsBody rest then some (pyDigitsVal 0 rest) else none

/-- Model of `os.path.basename` on POSIX paths: the part after the last
slash. -/
def pyBasename (s : String) : String :=
  ⟨(s.data.reverse.takeWhile (fun c => c != '/')).reverse⟩

/-- Oracle for `connect_postgres`: outcome of `psycopg2.connect`. -/
structure PgConnectEnv : Type where
  connectResult : PyResult Nat
  deriving DecidableEq, Repr

/-- Oracle for `connect_redis`: the resolved `CACHE_PORT` and
`CACHE_DB_NAME` environment strings, the outcome of constructing
`redis.Redis`, and the outcome of `ping`. -/
structure RedisConnectEnv : Type where
  cachePort : String
  cacheDbName : String
  constructResult : PyResult Nat
  pingResult : PyResult Unit
  deriving DecidableEq, Repr

/-- Oracle for `connect_s3`: outcome of `boto3.client` and of
`list_buckets`. -/
structure S3ConnectEnv : Type where
  constructResult : PyResult Nat
  listBucketsResult : PyResult (List String)
  deriving DecidableEq, Repr

/-- Oracle for `execute_postgres_query`: outcomes of `cursor()`,
`cursor.execute`, `cursor.fetchall`, `commit` and `cursor.close`. -/
structure QueryEnv : Type where
  cursorResult : PyResult Unit
  executeResult : PyResult Unit
  fetchResult : PyResult (List (List String))
  commitResult : PyResult Unit
  cursorCloseResult : PyResult Unit
  deriving DecidableEq, Repr

/-- Oracle for `set_redis_value`: outcome of the client `set` call. -/
structure SetEnv : Type where
  setResult : PyResult Unit
  deriving DecidableEq, Repr

/-- Oracle for `get_redis_value`: outcome of the client `get` call
(`Option String`: the stored value or absence). -/
structure GetEnv : Type where
  getResult : PyResult (Option String)
  deriving DecidableEq, Repr

/-- Oracle for `upload_to_s3`: outcome of `upload_file`. -/
structure UploadEnv : Type where
  uploadResult : PyResult Unit
  deriving DecidableEq, Repr

/-- Oracle for `download_from_s3`: outcome of `download_file`. -/
structure DownloadEnv : Type where
  downloadResult : PyResult Unit
  deriving DecidableEq, Repr

/-- Oracle for `close_connections`: outcome of the two underlying `close`
calls. -/
structure CloseEnv : Type where
  pgCloseResult : PyResult Unit
  redisCloseResult : PyResult Unit
  deriving DecidableEq, Repr

/-- Oracle for the local file write in the driver s3 block. -/
structure FileEnv : Type where
  writeResult : PyResult Unit
  deriving DecidableEq, Repr

/-- Result of `execute_postgres_query` when it does not return `None`:
a list of fetched rows, or `True` after a commit. -/
inductive PgQueryResult : Type where
  | rows : List (List String) → PgQueryResult
  | success : PgQueryResult
  deriving DecidableEq, Repr

/-- Embedding of `DataConnector.connect_postgres`: assign
`self.postgres_conn = psycopg2.connect(...)` and return `True`; on any
exception the assignment does not happen and `False` is returned. -/
def connect_postgres (self : DataConnector) (env : PgConnectEnv) :
    MethodOut Bool :=
  match env.connectResult with
  | .ok h => ⟨.ok true, { self with postgres_conn := some h }, [.pgConnect]⟩
  | .error _ => ⟨.ok false, self, [.pgConnect]⟩

/-- Embedding of `DataConnector.connect_redis`: convert `CACHE_PORT` and
`CACHE_DB_NAME` with `int` (a `ValueError` is caught by the handler),
assign `self.redis_client = redis.Redis(...)`, then `ping()`.  The
assignment happens before the ping, so a failing ping leaves the handle
set. -/
def connect_redis (self : DataConnector) (env : RedisConnectEnv) :
    MethodOut Bool :=
  match pyIntParse env.cachePort with
  | none => ⟨.ok false, self, []⟩
  | some _ =>
    match pyIntParse env.cacheDbName with
    | none => ⟨.ok false, self, []⟩
    | some _ =>
      match env.constructResult with
      | .error _ => ⟨.ok false, self, [.redisConstruct]⟩
      | .ok c =>
        let connected := { self with redis_client := some c }
        match env.pingResult with
        | .error _ => ⟨.ok false, connected, [.redisConstruct, .redisPing]⟩
        | .ok _ => ⟨.ok true, connected, [.redisConstruct, .redisPing]⟩

/-- Embedding of `DataConnector.connect_s3`: assign
`self.s3_client = boto3.client(...)`, then `list_buckets()`.  The
assignment happens before the listing probe. -/
def connect_s3 (self : DataConnector) (env : S3ConnectEnv) :
    MethodOut Bool :=
  match env.constructResult with
  | .error _ => ⟨.ok false, self, [.s3Construct]⟩
  | .ok c =>
    let connected := { self with s3_client := some c }
    match env.listBucketsResult with
    | .error _ => ⟨.ok false, connected, [.s3Construct, .s3ListBuckets]⟩
    | .ok _ => ⟨.ok true, connected, [.s3Construct, .s3ListBuckets]⟩

/-- Embedding of `DataConnector.execute_postgres_query`: return `None` when
`self.postgres_conn` is unset; otherwise open a cursor, execute, and either
fetch all rows (statement starts with SELECT after strip and upper) or
commit and return `True`.  Every exception is caught and turned into
`None`. -/
def execute_postgres_query (self : DataConnector) (query : String)
    (params : Option (List String)) (env : QueryEnv) :
    MethodOut (Option PgQueryResult) :=
  match self.postgres_conn with
  | none => ⟨.ok none, self, []⟩
  | some _ =>
    match env.cursorResult with
    | .error _ => ⟨.ok none, self, [.pgCursor]⟩
    | .ok _ =>
      match env.executeResult with
      | .error _ => ⟨.ok none, self, [.pgCursor, .pgExecute query (params.getD [])]⟩
      | .ok _ =>
        if isSelectQuery query then
          match env.fetchResult with
          | .error _ =>
            ⟨.ok none, self,
              [.pgCursor, .pgExecute query (params.getD []), .pgFetch]⟩
          | .ok rs =>
            match env.cursorCloseResult with
            | .error _ =>
              ⟨.ok none, self,
                [.pgCursor, .pgExecute query (params.getD []), .pgFetch, .pgCursorClose]⟩
            | .ok _ =>
              ⟨.ok (some (.rows rs)), self,
                [.pgCursor, .pgExecute query (params.getD []), .pgFetch, .pgCursorClose]⟩
        else
          match env.commitResult with
          | .error _ =>
            ⟨.ok none, self,
              [.pgCursor, .pgExecute query (params.getD []), .pgCommit]⟩
          | .ok _ =>
            match env.cursorCloseResult with
            | .error _ =>
              ⟨.ok none, self,
                [.pgCursor, .pgExecute query (params.getD []), .pgCommit, .pgCursorClose]⟩
            | .ok _ =>
              ⟨.ok (some .success), self,
                [.pgCursor, .pgExecute query (params.getD []), .pgCommit, .pgCursorClose]⟩

/-- Embedding of `DataConnector.set_redis_value`: `False` when the handle is
unset, otherwise call the client `set` and return `True`; an exception is
caught and turned into `False`. -/
def set_redis_value (self : DataConnector) (key value : String)
    (expiry : Option Nat) (env : SetEnv) : MethodOut Bool :=
  match self.redis_client with
  | none => ⟨.ok false, self, []⟩
  | some _ =>
    match env.setResult with
    | .error _ => ⟨.ok false, self, [.redisSet key value expiry]⟩
    | .ok _ => ⟨.ok true, self, [.redisSet key value expiry]⟩

/-- Embedding of `DataConnector.get_redis_value`: `None` when the handle is
unset, otherwise return the client `get` result; an exception is caught and
turned into `None`. -/
def get_redis_value (self : DataConnector) (key : String) (env : GetEnv) :
    MethodOut (Option String) :=
  match self.redis_client with
  | none => ⟨.ok none, self, []⟩
  | some _ =>
    match env.getResult with
    | .error _ => ⟨.ok none, self, [.redisGet key]⟩
    | .ok v => ⟨.ok v, self, [.redisGet key]⟩

/-- Embedding of `DataConnector.upload_to_s3`: `False` when the handle is
unset; the object name defaults to the file basename; the transfer
exception is caught and turned into `False`. -/
def upload_to_s3 (self : DataConnector) (file_path bucket_name : String)
    (object_name : Option String) (env : UploadEnv) : MethodOut Bool :=
  match self.s3_client with
  | none => ⟨.ok false, self, []⟩
  | some _ =>
    let objectName := object_name.getD (pyBasename file_path)
    match env.uploadResult with
    | .error _ => ⟨.ok false, self, [.s3Upload file_path bucket_name objectName]⟩
    | .ok _ => ⟨.ok true, self, [.s3Upload file_path bucket_name objectName]⟩

/-- Embedding of `DataConnector.download_from_s3`: `False` when the handle
is unset; the transfer exception is caught and turned into `False`. -/
def download_from_s3 (self : DataConnector) (bucket_name object_name file_path : String)
    (env : DownloadEnv) : MethodOut Bool :=
  match self.s3_client with
  | none => ⟨.ok false, self, []⟩
  | some _ =>
    match env.downloadResult with
    | .error _ => ⟨.ok false, self, [.s3Download bucket_name object_name file_path]⟩
    | .ok _ => ⟨.ok true, self, [.s3Download bucket_name object_name file_path]⟩

/-- Embedding of `DataConnector.close_connections`: call `close` on the
postgres handle if set, then on the redis handle if set.  There is no
handler in this method, so an exception from a `close` call propagates to
the caller; neither handle is ever assigned back to `None`. -/
def close_connections (self : DataConnector) (env : CloseEnv) :
    MethodOut Unit :=
  match self.postgres_conn with
  | some h =>
    match env.pgCloseResult with
    | .error e => ⟨.error e, self, [.pgClose h]⟩
    | .ok _ =>
      match self.redis_client with
      | some r =>
        match env.redisCloseResult with
        | .error e => ⟨.error e, self, [.pgClose h, .redisClose r]⟩
        | .ok _ => ⟨.ok (), self, [.pgClose h, .redisClose r]⟩
      | none => ⟨.ok (), self, [.pgClose h]⟩
  | none =>
    match self.redis_client with
    | some r =>
      match env.redisCloseResult with
      | .error e => ⟨.error e, self, [.redisClose r]⟩
      | .ok _ => ⟨.ok (), self, [.redisClose r]⟩
    | none => ⟨.ok (), self, []⟩

/-! ## The driver (`main`)

`main` is an unbounded `while True` loop.  Each iteration builds a fresh
facade, calls the three connect methods, runs each example block when the
corresponding flag is true, calls `close_connections` and sleeps.  The
driver has no exception handler: an exception escaping any called method
aborts the iteration (and the process). -/

/-- The triple-quoted CREATE TABLE statement of the driver pg block. -/
def createTableQuery : String :=
  "\n                CREATE TABLE IF NOT EXISTS examples (\n                    id SERIAL PRIMARY KEY,\n                    name VARCHAR(100) NOT NULL,\n                    created_at TIMESTAMP DEFAULT CURRENT_TIMESTAMP\n                )\n            "

/-- The INSERT statement of the driver pg block. -/
def insertQuery : String := "INSERT INTO examples (name) VALUES (%s)"

/-- The SELECT statement of the driver pg block. -/
def selectQuery : String := "SELECT * FROM examples"

/-- Sequence one facade call into the rest of a block: an exception aborts
the block, a normal result passes the updated state on; traces
concatenate. -/
def stepBind {α β : Type} (m : MethodOut α)
    (k : α → DataConnector → Except Unit β × DataConnector × List Event) :
    Except Unit β × DataConnector × List Event :=
  match m with
  | ⟨.error e, s, t⟩ => (.error e, s, t)
  | ⟨.ok a, s, t⟩ =>
    let r := k a s
    (r.1, r.2.1, t ++ r.2.2)

/-- Oracles for one driver iteration: one per client call the iteration can
make, plus the resolved `S3_BUCKET_NAME`. -/
structure IterEnv : Type where
  pgEnv : PgConnectEnv
  redisEnv : RedisConnectEnv
  s3Env : S3ConnectEnv
  createEnv : QueryEnv
  insertEnv : QueryEnv
  selectEnv : QueryEnv
  setEnv : SetEnv
  getEnv : GetEnv
  bucketName : String
  fileEnv : FileEnv
  uploadEnv : UploadEnv
  downloadEnv : DownloadEnv
  closeEnv : CloseEnv
  deriving DecidableEq, Repr

/-- The three connect calls of an iteration, started from a fresh facade:
the three status flags and the facade state they leave behind, with the
trace of client calls. -/
def connectPhase (env : IterEnv) :
    Except Unit (Bool × Bool × Bool × DataConnector) × List Event :=
  match connect_postgres ⟨none, none, none⟩ env.pgEnv with
  | ⟨.error e, _, t1⟩ => (.error e, t1)
  | ⟨.ok pg_status, s1, t1⟩ =>
    match connect_redis s1 env.redisEnv with
    | ⟨.error e, _, t2⟩ => (.error e, t1 ++ t2)
    | ⟨.ok redis_status, s2, t2⟩ =>
      match connect_s3 s2 env.s3Env with
      | ⟨.error e, _, t3⟩ => (.error e, t1 ++ t2 ++ t3)
      | ⟨.ok s3_status, s3, t3⟩ =>
        (.ok (pg_status, redis_status, s3_status, s3), t1 ++ t2 ++ t3)

/-- The pg example block: CREATE TABLE, INSERT, SELECT. -/
def pgExampleBlock (s : DataConnector) (env : IterEnv) :
    Except Unit Unit × DataConnector × List Event :=
  stepBind (execute_postgres_query s createTableQuery none env.createEnv)
    fun _ s1 =>
      stepBind (execute_postgres_query s1 insertQuery (some ["test_item"]) env.insertEnv)
        fun _ s2 =>
          stepBind (execute_postgres_query s2 selectQuery none env.selectEnv)
            fun _ s3 => (.ok (), s3, [])

/-- The redis example block: set then get `example_key`. -/
def redisExampleBlock (s : DataConnector) (env : IterEnv) :
    Except Unit Unit × DataConnector × List Event :=
  stepBind (set_redis_value s "example_key" "example_value" (some 3600) env.setEnv)
    fun _ s1 =>
      stepBind (get_redis_value s1 "example_key" env.getEnv)
        fun _ s2 => (.ok (), s2, [])

/-- The s3 example block: write the local test file (outside any handler),
upload it, download it back. -/
def s3ExampleBlock (s : DataConnector) (env : IterEnv) :
    Except Unit Unit × DataConnector × List Event :=
  match env.fileEnv.writeResult with
  | .error e =>
    (.error e, s, [.fileWrite "test_file.txt" "This is a test file for S3 upload"])
  | .ok _ =>
    let r :=
      stepBind (upload_to_s3 s "test_file.txt" env.bucketName none env.uploadEnv)
        fun _ s1 =>
          stepBind (download_from_s3 s1 env.bucketName "test_file.txt" "downloaded_test_file.txt" env.downloadEnv)
            fun _ s2 => (.ok (), s2, [])
    (r.1, r.2.1, .fileWrite "test_file.txt" "This is a test file for S3 upload" :: r.2.2)

/-- What one driver iteration produces: whether it finished normally (an
escaping exception ends the process), the three connect flags, whether each
example block was entered, and the full client-call trace. -/
structure IterOut : Type where
  result : Except Unit Unit
  pgStatus : Bool
  redisStatus : Bool
  s3Status : Bool
  ranPgBlock : Bool
  ranRedisBlock : Bool
  ranS3Block : Bool
  trace : List Event
  deriving DecidableEq, Repr

/-- One iteration of the `while True` loop in `main`: fresh facade, three
connects, each example block guarded by its flag, `close_connections`,
`time.sleep(3)`. -/
def mainIteration (env : IterEnv) : IterOut :=
  match connectPhase env with
  | (.error e, t) => ⟨.error e, false, false, false, false, false, false, t⟩
  | (.ok (pg_status, redis_status, s3_status, s), tc) =>
    match (if pg_status then pgExampleBlock s env else (.ok (), s, [])) with
    | (.error e, _, tp) =>
      ⟨.error e, pg_status, redis_status, s3_status, pg_status, false, false, tc ++ tp⟩
    | (.ok _, s1, tp) =>
      match (if redis_status then redisExampleBlock s1 env else (.ok (), s1, [])) with
      | (.error e, _, tr) =>
        ⟨.error e, pg_status, redis_status, s3_status, pg_status, redis_status, false,
          tc ++ tp ++ tr⟩
      | (.ok _, s2, tr) =>
        match (if s3_status then s3ExampleBlock s2 env else (.ok (), s2, [])) with
        | (.error e, _, ts) =>
          ⟨.error e, pg_status, redis_status, s3_status, pg_status, redis_status, s3_status,
            tc ++ tp ++ tr ++ ts⟩
        | (.ok _, s3, ts) =>
          match close_connections s3 env.closeEnv with
          | ⟨.error e, _, tcl⟩ =>
            ⟨.error e, pg_status, redis_status, s3_status, pg_status, redis_status, s3_status,
              tc ++ tp ++ tr ++ ts ++ tcl⟩
          | ⟨.ok _, _, tcl⟩ =>
            ⟨.ok (), pg_status, redis_status, s3_status, pg_status, redis_status, s3_status,
              tc ++ tp ++ tr ++ ts ++ tcl ++ [.sleep 3]⟩

/-- Running the driver loop for `n` iterations, each with its own oracle:
`Except.ok ()` when all `n` iterations finish normally, `Except.error ()`
when one of them is aborted by an escaping exception. -/
def mainLoop : Nat → (Nat → IterEnv) → Except Unit Unit
  | 0, _ => .ok ()
  | n + 1, envs =>
    match (mainIteration (envs 0)).result with
    | .error e => .error e
    | .ok _ => mainLoop n (fun i => envs (i + 1))

/-- Whether an underlying-client call outcome is a normal return. -/
def exceptOk {α : Type} : Except Unit α → Bool
  | .ok _ => true
  | .error _ => false

/-- Success of the relational connect of an iteration, as a function of the
oracle. -/
def pgStatusOf (env : IterEnv) : Bool := exceptOk env.pgEnv.connectResult

/-- Success of the cache connect of an iteration, as a function of the
oracle: both environment strings parse as integers, the client constructs,
and the ping returns. -/
def redisStatusOf (env : IterEnv) : Bool :=
  (pyIntParse env.redisEnv.cachePort).isSome &&
    (pyIntParse env.redisEnv.cacheDbName).isSome &&
    exceptOk env.redisEnv.constructResult && exceptOk env.redisEnv.pingResult

/-- Success of the object-store connect of an iteration, as a function of
the oracle. -/
def s3StatusOf (env : IterEnv) : Bool :=
  exceptOk env.s3Env.constructResult && exceptOk env.s3Env.listBucketsResult

/-- The calls of an iteration that sit outside every exception handler:
the two underlying closes and the local file write.  When these return
normally, nothing can abort the iteration. -/
def iterTeardownOk (env : IterEnv) : Prop :=
  env.closeEnv.pgCloseResult = Except.ok () ∧
    env.closeEnv.redisCloseResult = Except.ok () ∧
    env.fileEnv.writeResult = Except.ok ()

/-! ## Basic lemmas about the facade methods -/

lemma connect_postgres_isOk (s : DataConnector) (env : PgConnectEnv) :
    ∃ b, (connect_postgres s env).result = Except.ok b := by
  cases h : env.connectResult <;> simp [connect_postgres, h]

lemma connect_redis_isOk (s : DataConnector) (env : RedisConnectEnv) :
    ∃ b, (connect_redis s env).result = Except.ok b := by
  obtain ⟨cp, cdb, cr, pr⟩ := env
  cases hp : pyIntParse cp <;> cases hd : pyIntParse cdb <;>
    cases cr <;> cases pr <;> simp [connect_redis, hp, hd]

lemma connect_s3_isOk (s : DataConnector) (env : S3ConnectEnv) :
    ∃ b, (connect_s3 s env).result = Except.ok b := by
  obtain ⟨cr, lr⟩ := env
  cases cr <;> cases lr <;> simp [connect_s3]

lemma execute_postgres_query_ok (s : DataConnector) (q : String)
    (ps : Option (List String)) (env : QueryEnv) :
    (∃ r, (execute_postgres_query s q ps env).result = Except.ok r) ∧
      (execute_postgres_query s q ps env).state = s := by
  obtain ⟨cr, er, fr, cor, ccr⟩ := env
  cases hpc : s.postgres_conn <;> cases cr <;> cases er <;>
    cases hsel : isSelectQuery q <;> cases fr <;> cases cor <;> cases ccr <;>
    simp [execute_postgres_query, hpc, hsel]

lemma set_redis_value_ok (s : DataConnector) (k v : String) (ex : Option Nat)
    (env : SetEnv) :
    (∃ b, (set_redis_value s k v ex env).result = Except.ok b) ∧
      (set_redis_value s k v ex env).state = s := by
  obtain ⟨sr⟩ := env
  cases h : s.redis_client <;> cases sr <;> simp [set_redis_value, h]

lemma get_redis_value_ok (s : DataConnector) (k : String) (env : GetEnv) :
    (∃ r, (get_redis_value s k env).result = Except.ok r) ∧
      (get_redis_value s k env).state = s := by
  obtain ⟨gr⟩ := env
  cases h : s.redis_client <;> cases gr <;> simp [get_redis_value, h]

lemma upload_to_s3_ok (s : DataConnector) (f b : String) (o : Option String)
    (env : UploadEnv) :
    (∃ r, (upload_to_s3 s f b o env).result = Except.ok r) ∧
      (upload_to_s3 s f b o env).state = s := by
  obtain ⟨ur⟩ := env
  cases h : s.s3_client <;> cases ur <;> simp [upload_to_s3, h]

lemma download_from_s3_ok (s : DataConnector) (b o f : String)
    (env : DownloadEnv) :
    (∃ r, (download_from_s3 s b o f env).result = Except.ok r) ∧
      (download_from_s3 s b o f env).state = s := by
  obtain ⟨dr⟩ := env
  cases h : s.s3_client <;> cases dr <;> simp [download_from_s3, h]

lemma close_connections_state (s : DataConnector) (env : CloseEnv) :
    (close_connections s env).state = s := by
  obtain ⟨p1, p2⟩ := env
  cases hp : s.postgres_conn <;> cases hr : s.redis_client <;>
    cases p1 <;> cases p2 <;> simp [close_connections, hp, hr]

lemma close_connections_ok_result (s : DataConnector) (env : CloseEnv)
    (h1 : env.pgCloseResult = Except.ok ())
    (h2 : env.redisCloseResult = Except.ok ()) :
    (close_connections s env).result = Except.ok () := by
  obtain ⟨p1, p2⟩ := env
  cases h1; cases h2
  cases hp : s.postgres_conn <;> cases hr : s.redis_client <;>
    simp [close_connections, hp, hr]

/-! ## Claim theorems -/

/-- C1: on a facade whose relational handle is set, `execute_postgres_query`
with a statement that begins (case-insensitively, ignoring surrounding
whitespace) with SELECT never calls commit, and when the underlying cursor
calls return normally it returns exactly the fetched rows; with any other
statement it never returns rows, and when the underlying calls return
normally it calls commit and returns `True`. -/
theorem execute_postgres_query_select_vs_commit (s : DataConnector)
    (q : String) (ps : Option (List String)) (env : QueryEnv) (h0 : Nat)
    (hconn : s.postgres_conn = some h0) :
    (isSelectQuery q = true →
      Event.pgCommit ∉ (execute_postgres_query s q ps env).trace ∧
      (∀ rs, env.cursorResult = Except.ok () → env.executeResult = Except.ok () →
        env.fetchResult = Except.ok rs → env.cursorCloseResult = Except.ok () →
        (execute_postgres_query s q ps env).result =
          Except.ok (some (PgQueryResult.rows rs)))) ∧
    (isSelectQuery q = false →
      (∀ rs, (execute_postgres_query s q ps env).result ≠
        Except.ok (some (PgQueryResult.rows rs))) ∧
      (env.cursorResult = Except.ok () → env.executeResult = Except.ok () →
        env.commitResult = Except.ok () → env.cursorCloseResult = Except.ok () →
        (execute_postgres_query s q ps env).result =
          Except.ok (some PgQueryResult.success) ∧
        Event.pgCommit ∈ (execute_postgres_query s q ps env).trace)) := by
  obtain ⟨cr, er, fr, cor, ccr⟩ := env
  cases cr <;> cases er <;> cases hsel : isSelectQuery q <;>
    cases fr <;> cases cor <;> cases ccr <;>
    simp [execute_postgres_query, hconn, hsel]

/-- A query oracle whose every cursor call returns normally, fetching one
row. -/
def selectOkQueryEnv : QueryEnv :=
  ⟨Except.ok (), Except.ok (), Except.ok [["1"]], Except.ok (), Except.ok ()⟩

/-- Witness for C1 at a concrete connected facade and the statement
"SELECT 1". -/
theorem execute_postgres_query_select_vs_commit_witness :
    (execute_postgres_query ⟨some 1, none, none⟩ "SELECT 1" none selectOkQueryEnv).result =
      Except.ok (some (PgQueryResult.rows [["1"]])) ∧
    Event.pgCommit ∉
      (execute_postgres_query ⟨some 1, none, none⟩ "SELECT 1" none selectOkQueryEnv).trace := by
  have h := execute_postgres_query_select_vs_commit ⟨some 1, none, none⟩
    "SELECT 1" none selectOkQueryEnv 1 rfl
  have hs : isSelectQuery "SELECT 1" = true := by decide
  exact ⟨(h.1 hs).2 [["1"]] rfl rfl rfl rfl, (h.1 hs).1⟩

/-- C2 (amended): `close_connections` calls close on the relational and
cache handles when they are set, but never clears either handle (the state
is returned unchanged, object-store handle included); it is a no-op when no
relational or cache handle is set; and it returns normally whenever the
underlying close calls do. -/
theorem close_connections_actual_contract (s : DataConnector) (env : CloseEnv) :
    (close_connections s env).state = s ∧
    (s.postgres_conn = none → s.redis_client = none →
      close_connections s env = ⟨Except.ok (), s, []⟩) ∧
    (env.pgCloseResult = Except.ok () → env.redisCloseResult = Except.ok () →
      (close_connections s env).result = Except.ok () ∧
      (∀ h, s.postgres_conn = some h →
        Event.pgClose h ∈ (close_connections s env).trace) ∧
      (∀ r, s.redis_client = some r →
        Event.redisClose r ∈ (close_connections s env).trace)) := by
  obtain ⟨p1, p2⟩ := env
  obtain ⟨pc, rc, sc⟩ := s
  cases pc <;> cases rc <;> cases p1 <;> cases p2 <;> simp [close_connections]

/-- Counterexample to C2 as stated: after `close_connections` on a facade
with both handles set and normally returning close calls, the handles are
still set (nothing is cleared); moreover the operation can fail: when the
underlying close raises, the exception propagates. -/
theorem close_connections_does_not_clear_handles :
    (close_connections ⟨some 1, some 2, none⟩ ⟨Except.ok (), Except.ok ()⟩).state.postgres_conn = some 1 ∧
    (close_connections ⟨some 1, some 2, none⟩ ⟨Except.ok (), Except.ok ()⟩).state.redis_client = some 2 ∧
    (close_connections ⟨some 3, none, none⟩ ⟨Except.error (), Except.ok ()⟩).result = Except.error () :=
  ⟨rfl, rfl, rfl⟩

/-- C3 (amended): every facade operation other than `close_connections`
catches every exception of the underlying client and returns a normal
sentinel value, for every state and every oracle; `close_connections` is
the one operation without a handler. -/
theorem facade_methods_never_raise :
    (∀ s env, ∃ b, (connect_postgres s env).result = Except.ok b) ∧
    (∀ s env, ∃ b, (connect_redis s env).result = Except.ok b) ∧
    (∀ s env, ∃ b, (connect_s3 s env).result = Except.ok b) ∧
    (∀ s q ps env, ∃ r, (execute_postgres_query s q ps env).result = Except.ok r) ∧
    (∀ s k v ex env, ∃ b, (set_redis_value s k v ex env).result = Except.ok b) ∧
    (∀ s k env, ∃ r, (get_redis_value s k env).result = Except.ok r) ∧
    (∀ s f b o env, ∃ r, (upload_to_s3 s f b o env).result = Except.ok r) ∧
    (∀ s b o f env, ∃ r, (download_from_s3 s b o f env).result = Except.ok r) :=
  ⟨connect_postgres_isOk, connect_redis_isOk, connect_s3_isOk,
    fun s q ps env => (execute_postgres_query_ok s q ps env).1,
    fun s k v ex env => (set_redis_value_ok s k v ex env).1,
    fun s k env => (get_redis_value_ok s k env).1,
    fun s f b o env => (upload_to_s3_ok s f b o env).1,
    fun s b o f env => (download_from_s3_ok s b o f env).1⟩

/-- Counterexample to C3 as stated: an exception raised by the underlying
close call inside `close_connections` propagates past the facade
boundary. -/
theorem close_connections_raises_past_facade :
    (close_connections ⟨some 5, none, none⟩ ⟨Except.error (), Except.ok ()⟩).result =
      Except.error () := rfl

/-- C4: each handle-dependent operation, called while its handle is unset,
returns its designated sentinel (`None` for queries and cache get, `False`
for the rest), leaves the state unchanged and performs no client call at
all. -/
theorem not_connected_returns_sentinel (s : DataConnector) (qe : QueryEnv)
    (se : SetEnv) (ge : GetEnv) (ue : UploadEnv) (de : DownloadEnv) :
    (s.postgres_conn = none →
      ∀ q ps, execute_postgres_query s q ps qe = ⟨Except.ok none, s, []⟩) ∧
    (s.redis_client = none →
      ∀ k v ex, set_redis_value s k v ex se = ⟨Except.ok false, s, []⟩) ∧
    (s.redis_client = none →
      ∀ k, get_redis_value s k ge = ⟨Except.ok none, s, []⟩) ∧
    (s.s3_client = none →
      ∀ f b o, upload_to_s3 s f b o ue = ⟨Except.ok false, s, []⟩) ∧
    (s.s3_client = none →
      ∀ b o f, download_from_s3 s b o f de = ⟨Except.ok false, s, []⟩) := by
  refine ⟨fun h q ps => ?_, fun h k v ex => ?_, fun h k => ?_,
    fun h f b o => ?_, fun h b o f => ?_⟩ <;>
    simp [execute_postgres_query, set_redis_value, get_redis_value,
      upload_to_s3, download_from_s3, h]

/-- C5: when `psycopg2.connect` raises, `connect_postgres` returns `False`
and the relational handle stays unset. -/
theorem connect_postgres_failure_keeps_handle_unset (s : DataConnector)
    (env : PgConnectEnv) (hs : s.postgres_conn = none)
    (he : env.connectResult = Except.error ()) :
    (connect_postgres s env).result = Except.ok false ∧
    (connect_postgres s env).state.postgres_conn = none := by
  simp [connect_postgres, he, hs]

/-- Witness for C5 at a fresh facade and a raising connect call. -/
theorem connect_postgres_failure_keeps_handle_unset_witness :
    (connect_postgres ⟨none, none, none⟩ ⟨Except.error ()⟩).result = Except.ok false ∧
    (connect_postgres ⟨none, none, none⟩ ⟨Except.error ()⟩).state.postgres_conn = none :=
  connect_postgres_failure_keeps_handle_unset ⟨none, none, none⟩ ⟨Except.error ()⟩ rfl rfl

/-- C6: when both cache environment strings parse, the client constructs
and the ping probe returns, `connect_redis` returns `True` with the cache
handle set to the constructed client and the ping performed; a construction
failure or a probe failure makes it return `False`. -/
theorem connect_redis_probe_contract (s : DataConnector) (env : RedisConnectEnv) :
    (∀ c, pyIntParse env.cachePort ≠ none → pyIntParse env.cacheDbName ≠ none →
      env.constructResult = Except.ok c → env.pingResult = Except.ok () →
      (connect_redis s env).result = Except.ok true ∧
      (connect_redis s env).state.redis_client = some c ∧
      Event.redisPing ∈ (connect_redis s env).trace) ∧
    (env.constructResult = Except.error () →
      (connect_redis s env).result = Except.ok false) ∧
    (env.pingResult = Except.error () →
      (connect_redis s env).result = Except.ok false) := by
  obtain ⟨cp, cdb, cr, pr⟩ := env
  cases hp : pyIntParse cp <;> cases hd : pyIntParse cdb <;>
    cases cr <;> cases pr <;> simp [connect_redis, hp, hd]

/-- C7: the code at the failing input.  A second successful connect
overwrites the previous handle with the new one without ever closing the
old handle: no close event for the old handle appears in the trace of any
connect method, so the prior connection is leaked. -/
theorem reconnect_overwrites_without_closing :
    ((connect_postgres ⟨some 1, none, none⟩ ⟨Except.ok 2⟩).state.postgres_conn = some 2 ∧
      (connect_postgres ⟨some 1, none, none⟩ ⟨Except.ok 2⟩).trace = [Event.pgConnect]) ∧
    ((connect_redis ⟨none, some 3, none⟩ ⟨"6379", "0", Except.ok 4, Except.ok ()⟩).state.redis_client = some 4 ∧
      (connect_redis ⟨none, some 3, none⟩ ⟨"6379", "0", Except.ok 4, Except.ok ()⟩).trace =
        [Event.redisConstruct, Event.redisPing]) ∧
    (connect_s3 ⟨none, none, some 5⟩ ⟨Except.ok 6, Except.ok []⟩).state.s3_client = some 6 := by
  decide

/-- C9: when the cache client constructs but the ping probe raises,
`connect_redis` returns `False` while leaving the cache handle set to the
constructed client, and a later `set_redis_value` or `get_redis_value` on
that state does call the underlying client. -/
theorem connect_redis_ping_failure_leaves_handle (s : DataConnector)
    (env : RedisConnectEnv) (c : Nat)
    (hp : pyIntParse env.cachePort ≠ none)
    (hd : pyIntParse env.cacheDbName ≠ none)
    (hc : env.constructResult = Except.ok c)
    (hping : env.pingResult = Except.error ()) :
    (connect_redis s env).result = Except.ok false ∧
    (connect_redis s env).state.redis_client = some c ∧
    (∀ k v ex se, Event.redisSet k v ex ∈
      (set_redis_value (connect_redis s env).state k v ex se).trace) ∧
    (∀ k ge, Event.redisGet k ∈
      (get_redis_value (connect_redis s env).state k ge).trace) := by
  obtain ⟨cp, cdb, cr, pr⟩ := env
  cases hc; cases hping
  cases hp2 : pyIntParse cp with
  | none => exact absurd hp2 hp
  | some vp =>
    cases hd2 : pyIntParse cdb with
    | none => exact absurd hd2 hd
    | some vd =>
      have hstate : (connect_redis s ⟨cp, cdb, Except.ok c, Except.error ()⟩).state.redis_client = some c := by
        simp [connect_redis, hp2, hd2]
      refine ⟨by simp [connect_redis, hp2, hd2], hstate, fun k v ex se => ?_, fun k ge => ?_⟩
      · cases se with
        | mk sr => cases sr <;> simp [set_redis_value, hstate]
      · cases ge with
        | mk gr => cases gr <;> simp [get_redis_value, hstate]

/-- A cache connect oracle whose construction returns client 7 and whose
ping raises. -/
def pingFailRedisEnv : RedisConnectEnv :=
  ⟨"6379", "0", Except.ok 7, Except.error ()⟩

/-- Witness for C9 at a fresh facade and concrete oracles. -/
theorem connect_redis_ping_failure_leaves_handle_witness :
    (connect_redis ⟨none, none, none⟩ pingFailRedisEnv).result = Except.ok false ∧
    (connect_redis ⟨none, none, none⟩ pingFailRedisEnv).state.redis_client = some 7 ∧
    (∀ k v ex se, Event.redisSet k v ex ∈
      (set_redis_value (connect_redis ⟨none, none, none⟩ pingFailRedisEnv).state k v ex se).trace) ∧
    (∀ k ge, Event.redisGet k ∈
      (get_redis_value (connect_redis ⟨none, none, none⟩ pingFailRedisEnv).state k ge).trace) :=
  connect_redis_ping_failure_leaves_handle ⟨none, none, none⟩ pingFailRedisEnv 7
    (by decide) (by decide) rfl rfl

/-- C10: when `CACHE_PORT` or `CACHE_DB_NAME` does not parse as an integer,
the `ValueError` from `int` is caught by the method handler: `connect_redis`
returns `False` to the caller (it does not raise), changes nothing and
performs no client call. -/
theorem connect_redis_nonint_env_returns_false (s : DataConnector)
    (env : RedisConnectEnv)
    (h : pyIntParse env.cachePort = none ∨ pyIntParse env.cacheDbName = none) :
    connect_redis s env = ⟨Except.ok false, s, []⟩ := by
  rcases h with h | h
  · simp [connect_redis, h]
  · cases hp : pyIntParse env.cachePort <;> simp [connect_redis, hp, h]

/-- Witness for C10 with a non-numeric `CACHE_PORT`. -/
theorem connect_redis_nonint_env_returns_false_witness :
    connect_redis ⟨none, none, none⟩ ⟨"not a number", "0", Except.ok 1, Except.ok ()⟩ =
      ⟨Except.ok false, ⟨none, none, none⟩, []⟩ :=
  connect_redis_nonint_env_returns_false ⟨none, none, none⟩
    ⟨"not a number", "0", Except.ok 1, Except.ok ()⟩ (Or.inl (by decide))

/-! ## The driver loop never stops on operation failures (C8) -/

lemma stepBind_eq {α β : Type} (m : MethodOut α)
    (k : α → DataConnector → Except Unit β × DataConnector × List Event)
    (a : α) (s s2 : DataConnector) (r : Except Unit β) (t2 : List Event)
    (hm : m.result = Except.ok a) (hs : m.state = s)
    (hk : k a s = (r, s2, t2)) :
    stepBind m k = (r, s2, m.trace ++ t2) := by
  obtain ⟨res, st, tr⟩ := m
  simp only [MethodOut.result] at hm
  simp only [MethodOut.state] at hs
  subst hm hs
  simp [stepBind, hk]

lemma pgExampleBlock_ok (s : DataConnector) (env : IterEnv) :
    ∃ t, pgExampleBlock s env = (Except.ok (), s, t) := by
  obtain ⟨⟨r1, h1⟩, hs1⟩ := execute_postgres_query_ok s createTableQuery none env.createEnv
  obtain ⟨⟨r2, h2⟩, hs2⟩ := execute_postgres_query_ok s insertQuery (some ["test_item"]) env.insertEnv
  obtain ⟨⟨r3, h3⟩, hs3⟩ := execute_postgres_query_ok s selectQuery none env.selectEnv
  exact ⟨_, stepBind_eq _ _ r1 s s _ _ h1 hs1
    (stepBind_eq _ _ r2 s s _ _ h2 hs2 (stepBind_eq _ _ r3 s s _ _ h3 hs3 rfl))⟩

lemma redisExampleBlock_ok (s : DataConnector) (env : IterEnv) :
    ∃ t, redisExampleBlock s env = (Except.ok (), s, t) := by
  obtain ⟨⟨r1, h1⟩, hs1⟩ := set_redis_value_ok s "example_key" "example_value" (some 3600) env.setEnv
  obtain ⟨⟨r2, h2⟩, hs2⟩ := get_redis_value_ok s "example_key" env.getEnv
  exact ⟨_, stepBind_eq _ _ r1 s s _ _ h1 hs1 (stepBind_eq _ _ r2 s s _ _ h2 hs2 rfl)⟩

lemma s3ExampleBlock_ok (s : DataConnector) (env : IterEnv)
    (hfw : env.fileEnv.writeResult = Except.ok ()) :
    ∃ t, s3ExampleBlock s env = (Except.ok (), s, t) := by
  obtain ⟨⟨r1, h1⟩, hs1⟩ := upload_to_s3_ok s "test_file.txt" env.bucketName none env.uploadEnv
  obtain ⟨⟨r2, h2⟩, hs2⟩ :=
    download_from_s3_ok s env.bucketName "test_file.txt" "downloaded_test_file.txt" env.downloadEnv
  have hinner : stepBind (upload_to_s3 s "test_file.txt" env.bucketName none env.uploadEnv)
      (fun _ s1 =>
        stepBind (download_from_s3 s1 env.bucketName "test_file.txt" "downloaded_test_file.txt" env.downloadEnv)
          fun _ s2 => (Except.ok (), s2, [])) =
      (Except.ok (), s,
        (upload_to_s3 s "test_file.txt" env.bucketName none env.uploadEnv).trace ++
          ((download_from_s3 s env.bucketName "test_file.txt" "downloaded_test_file.txt" env.downloadEnv).trace ++
            [])) :=
    stepBind_eq _ _ r1 s s _ _ h1 hs1 (stepBind_eq _ _ r2 s s _ _ h2 hs2 rfl)
  refine ⟨Event.fileWrite "test_file.txt" "This is a test file for S3 upload" ::
    ((upload_to_s3 s "test_file.txt" env.bucketName none env.uploadEnv).trace ++
      ((download_from_s3 s env.bucketName "test_file.txt" "downloaded_test_file.txt" env.downloadEnv).trace ++
        [])), ?_⟩
  simp only [s3ExampleBlock, hfw, hinner]

lemma connectPhase_spec (env : IterEnv) :
    ∃ s t, connectPhase env =
      (Except.ok (pgStatusOf env, redisStatusOf env, s3StatusOf env, s), t) := by
  obtain ⟨⟨pgc⟩, ⟨cp, cdb, rc, rp⟩, ⟨sc, sl⟩, ce, ie, sle, ste, ge, bn, fe, ue, de, cle⟩ := env
  cases pgc <;> cases hp : pyIntParse cp <;> cases hd : pyIntParse cdb <;>
    cases rc <;> cases rp <;> cases sc <;> cases sl <;>
    simp [connectPhase, connect_postgres, connect_redis, connect_s3,
      pgStatusOf, redisStatusOf, s3StatusOf, exceptOk, hp, hd]

lemma mainIteration_spec (env : IterEnv) (h : iterTeardownOk env) :
    (mainIteration env).result = Except.ok () ∧
    (mainIteration env).pgStatus = pgStatusOf env ∧
    (mainIteration env).redisStatus = redisStatusOf env ∧
    (mainIteration env).s3Status = s3StatusOf env ∧
    (mainIteration env).ranPgBlock = pgStatusOf env ∧
    (mainIteration env).ranRedisBlock = redisStatusOf env ∧
    (mainIteration env).ranS3Block = s3StatusOf env ∧
    Event.sleep 3 ∈ (mainIteration env).trace := by
  obtain ⟨h1, h2, h3⟩ := h
  obtain ⟨s, tc, hcp⟩ := connectPhase_spec env
  obtain ⟨tp, hpgb⟩ := pgExampleBlock_ok s env
  obtain ⟨tr, hrdb⟩ := redisExampleBlock_ok s env
  obtain ⟨ts, hs3b⟩ := s3ExampleBlock_ok s env h3
  have hpg : (if pgStatusOf env then pgExampleBlock s env else (Except.ok (), s, [])) =
      (Except.ok (), s, if pgStatusOf env then tp else []) := by
    cases pgStatusOf env <;> simp [hpgb]
  have hrd : (if redisStatusOf env then redisExampleBlock s env else (Except.ok (), s, [])) =
      (Except.ok (), s, if redisStatusOf env then tr else []) := by
    cases redisStatusOf env <;> simp [hrdb]
  have hs3 : (if s3StatusOf env then s3ExampleBlock s env else (Except.ok (), s, [])) =
      (Except.ok (), s, if s3StatusOf env then ts else []) := by
    cases s3StatusOf env <;> simp [hs3b]
  rcases hcl : close_connections s env.closeEnv with ⟨clres, clst, cltr⟩
  have hclok : clres = Except.ok () := by
    have := close_connections_ok_result s env.closeEnv h1 h2
    rw [hcl] at this
    exact this
  subst hclok
  simp [mainIteration, hcp, hpg, hrd, hs3, hcl]

lemma mainLoop_ok : ∀ (n : Nat) (envs : Nat → IterEnv),
    (∀ i, iterTeardownOk (envs i)) → mainLoop n envs = Except.ok ()
  | 0, _, _ => rfl
  | n + 1, envs, h => by
    have h0 := (mainIteration_spec (envs 0) (h 0)).1
    have hrec := mainLoop_ok n (fun i => envs (i + 1)) (fun i => h (i + 1))
    simp [mainLoop, h0, hrec]

/-- C8: when the calls that sit outside every handler (the underlying
closes and the local file write) return normally, the driver loop runs any
number of iterations without terminating, whatever the outcomes of the
three connects and of the example operations; each iteration starts from a
fresh facade, enters each example block exactly when the corresponding
connect flag was true, closes connections and sleeps. -/
theorem main_loop_never_terminates (n : Nat) (envs : Nat → IterEnv)
    (h : ∀ i, iterTeardownOk (envs i)) :
    mainLoop n envs = Except.ok () ∧
    (∀ env, iterTeardownOk env →
      (mainIteration env).result = Except.ok () ∧
      (mainIteration env).pgStatus = pgStatusOf env ∧
      (mainIteration env).redisStatus = redisStatusOf env ∧
      (mainIteration env).s3Status = s3StatusOf env ∧
      (mainIteration env).ranPgBlock = pgStatusOf env ∧
      (mainIteration env).ranRedisBlock = redisStatusOf env ∧
      (mainIteration env).ranS3Block = s3StatusOf env ∧
      Event.sleep 3 ∈ (mainIteration env).trace) :=
  ⟨mainLoop_ok n envs h, fun env he => mainIteration_spec env he⟩

/-- One concrete iteration oracle: the relational connect raises, the cache
ping raises, the object-store calls return; every teardown call returns. -/
def sampleIterEnv : IterEnv :=
  ⟨⟨Except.error ()⟩, ⟨"6379", "0", Except.ok 2, Except.error ()⟩,
    ⟨Except.ok 3, Except.ok []⟩, selectOkQueryEnv, selectOkQueryEnv,
    selectOkQueryEnv, ⟨Except.ok ()⟩, ⟨Except.ok (some "example_value")⟩,
    "example-bucket", ⟨Except.ok ()⟩, ⟨Except.ok ()⟩, ⟨Except.ok ()⟩,
    ⟨Except.ok (), Except.ok ()⟩⟩

/-- Witness for C8: three iterations in which two connections fail every
time still finish normally. -/
theorem main_loop_never_terminates_witness :
    mainLoop 3 (fun _ => sampleIterEnv) = Except.ok () :=
  (main_loop_never_terminates 3 (fun _ => sampleIterEnv)
    (fun _ => ⟨rfl, rfl, rfl⟩)).1

end Demo
